import Mathlib

/-!
Verification development for the DEVELIX WhatsApp bot repository.

Shallow embedding of the conversation engine (`server/bot-handler.ts`),
the connection manager (`server/whatsapp-bot.ts`), and the in-memory
repository (`server/storage.ts`, `server/routes.ts`).

JavaScript specifics captured by the embedding:
* a `Map` is modelled as an association list with first-match lookup;
* template interpolation of `undefined` renders the string "undefined"
  (`jstr` below);
* `a || b` on possibly-absent strings takes `b` when `a` is absent or
  empty (`jsOr` below);
* a rejected promise is modelled as `Except.error` carrying the state
  reached before the throw.
-/

/-- JavaScript template interpolation: `undefined` renders as "undefined". -/
def jstr (o : Option String) : String := o.getD "undefined"

/-- JavaScript `a || b` for a possibly-absent string `a`: `b` when `a` is
absent or empty (both are falsy). -/
def jsOr (a : Option String) (b : String) : String :=
  match a with
  | some s => if s = "" then b else s
  | none => b

/-- `String.trim` written by structural recursion over the characters (the
core library version does not reduce in the kernel): drop whitespace from both
ends, as JavaScript `.trim()` does. -/
def jsTrim (s : String) : String :=
  String.mk (((s.data.dropWhile Char.isWhitespace).reverse.dropWhile Char.isWhitespace).reverse)

/-- JavaScript `.toLowerCase()` on the menu inputs (ASCII range), written by
structural recursion over the characters. -/
def jsToLower (s : String) : String := String.mk (s.data.map Char.toLower)

/-- Whether `pat` is a prefix of `l`. -/
def isPrefixOfChars : List Char → List Char → Bool
  | [], _ => true
  | _ :: _, [] => false
  | p :: ps, c :: cs => p = c && isPrefixOfChars ps cs

/-- Whether `pat` occurs inside `l`. -/
def includesAux (pat : List Char) : List Char → Bool
  | [] => isPrefixOfChars pat []
  | c :: cs => isPrefixOfChars pat (c :: cs) || includesAux pat cs

/-- JavaScript `s.includes(pat)`. -/
def includes (s pat : String) : Bool := includesAux pat.data s.data

/-- The in-progress lead draft (`userState.leadData`); fields appear as the
form advances, `{}` is the fresh/cleared draft. -/
structure LeadData where
  projectType : Option String := none
  budget : Option String := none
  timeline : Option String := none
  description : Option String := none
  name : Option String := none
  deriving DecidableEq, Repr

/-- Per-counterparty conversation state (`BotState` in bot-handler.ts). -/
structure BotState where
  currentMenu : String
  leadFormStep : Nat
  leadData : LeadData
  deriving DecidableEq, Repr

/-- The fresh session created on first contact. -/
def freshState : BotState := ⟨"main", 0, {}⟩

/-- Root menu text returned by `getMainMenu()`. -/
def getMainMenu : String :=
  "👋 *Welcome to Develix!*\n\n🚀 *Technology Without Barriers*\nAI & Software solutions built in Nigeria, designed for the world.\n\nPlease select from the menu below:\n\n1️⃣ *Custom Development* - Bring Your Ideas to Life\n2️⃣ *Our Products & Apps* - Ready-to-use Solutions  \n3️⃣ *AI Models & Solutions* - Machine Learning Services\n4️⃣ *Website Development* - Modern Web Solutions\n5️⃣ *Elixa Coin & Blockchain* - DeFi & Crypto Solutions\n6️⃣ *Vendra Marketplace* - AI-Powered Business Tools\n7️⃣ *Project Showcase* - Case Studies & Portfolio\n8️⃣ *Get Quote/Consultation* - Free Project Assessment\n9️⃣ *Contact & Support* - Get in Touch\n\n💡 *How to use:*\n• Type a number (1-9)\n• Use keywords like \"quote\", \"ai\", \"web\", \"vendra\"\n• Type \"menu\" anytime to return here"

/-- `getCustomDevelopmentInfo(userState)` (the argument is unused in the
source). -/
def getCustomDevelopmentInfo : String :=
  "🛠️ *Custom Development Services*\n\nWe build custom software solutions tailored to your specific needs:\n\n💻 *Our Services:*\n• *Mobile Apps:* React Native, Flutter (₦500K - ₦2M)\n• *Web Applications:* React, Next.js, Node.js (₦300K - ₦1.5M)  \n• *AI/ML Solutions:* Custom models, API integration (₦800K - ₦3M)\n• *Enterprise Systems:* CRM, ERP, Dashboard (₦1M - ₦5M)\n\n⭐ *Recent Success:* FirstBank Nigeria - 300% transaction speed improvement\n\n📊 *Our Track Record:*\n• 98% client satisfaction rate\n• 150+ projects delivered\n• $50M+ client ROI generated\n\nWould you like to discuss your project? Reply with 'quote' to start!"

/-- `getProductsInfo()`. -/
def getProductsInfo : String :=
  "📱 *Our Ready-to-Use Products*\n\nExplore our collection of innovative apps and solutions:\n\n🏪 *Vendra* - AI-Powered SME Platform\n• ₂2.5M total supply\n• Multilingual marketplace for African SMEs\n• AI customer engagement tools\n\n🪙 *Elixa Coin* - Blockchain & DeFi  \n• ₦850 current price\n• 15K+ token holders, 99.9% uptime\n• Africa's gateway to decentralized finance\n\n🛡️ *Anti-Fraud Detector* - AI Security System\n• Real-time fraud detection with 95% accuracy\n• Used by major banks across Nigeria\n\n🤖 *WhatsApp Bot* - This bot you're using!\n• Automated customer service\n• Smart lead generation\n• 24/7 availability\n\nType the product name for more details or 'menu' for main menu."

/-- `getAIInfo()`. -/
def getAIInfo : String :=
  "🤖 *AI Models & Machine Learning*\n\nAdvanced AI solutions powered by cutting-edge technology:\n\n🗣️ *Natural Language Processing*\n• Multilingual support: English, Hausa, Yoruba, Igbo, Swahili\n• Sentiment analysis and text classification\n• Chatbot development\n\n👁️ *Computer Vision*  \n• Medical imaging analysis\n• Document processing and OCR\n• Object detection and recognition\n\n📊 *Predictive Analytics*\n• Financial forecasting and risk assessment  \n• Market analysis and customer insights\n• Business intelligence dashboards\n\n🏆 *Success Stories:*\n• Kuda Bank: 95% fraud reduction with our ML model\n• LUTH: 60% faster patient diagnosis with AI\n• 15+ enterprises using our AI solutions\n\nReady to explore AI for your business? Type '8' for consultation!"

/-- `getWebDevInfo()`. -/
def getWebDevInfo : String :=
  "🌐 *Modern Website Development*\n\nProfessional websites that drive results:\n\n📊 *Our Metrics:*\n• 99.9% Uptime SLA\n• 2-8 Week Delivery  \n• Mobile-first approach\n\n💰 *Pricing:*\n• *Business Websites:* ₦150K - ₦500K\n• *E-commerce Platforms:* ₦400K - ₦1.2M\n• *Web Applications:* ₦600K - ₦2M\n• *Enterprise Portals:* ₦1M - ₦5M\n\n🛠️ *Technology Stack:*\nReact • Next.js • Node.js • AWS • Docker\n\n✅ *What's Included:*\n• Responsive design for all devices\n• SEO optimization  \n• Security implementation\n• Performance optimization\n• 6 months free maintenance\n\nReady to start your web project? Type '8' for a free quote!"

/-- `getBlockchainInfo()`. -/
def getBlockchainInfo : String :=
  "⛓️ *Elixa Coin & Blockchain Solutions*\n\nAfrica's gateway to decentralized finance:\n\n📈 *Live Metrics:*\n• 2.5M Total Supply (Fixed)\n• ₦850 Current Price\n• 15K+ Token Holders  \n• 99.9% Network Uptime\n\n💰 *Key Benefits:*\n• *Cross-Border Payments:* <1% fees vs 8-12% traditional\n• *DeFi Savings:* Up to 12% APY staking rewards\n• *Merchant Integration:* Instant crypto payments\n\n🏗️ *Blockchain Services:*\n• Smart Contract Development\n• DeFi Protocol Creation  \n• Cryptocurrency Integration\n• NFT Marketplace Development\n\n🔒 *Security & Compliance:*\n• Audited by leading blockchain security firms\n• Fully compliant with Nigerian SEC\n• Built on Polygon for scalability\n\nGet ELX tokens or learn more? Type 'elixa' for details!"

/-- `getVendraInfo()`. -/
def getVendraInfo : String :=
  "🏪 *Vendra - AI-Powered SME Platform*\n\nEmpowering African small businesses with smart tools:\n\n📊 *Live Marketplace Metrics:*\n• ₦42.3M 24h Sales Volume (+22.1%)\n• 2,314 Active Vendors\n• 96% Order Fulfillment Rate\n• 4.7★ Customer Rating\n\n🚀 *Key Features:*\n• *Multilingual AI:* English, Hausa, Yoruba, Igbo, Swahili, French\n• *Mobile-First:* Works on 2G networks, offline processing  \n• *Smart Analytics:* Sales forecasting, customer insights\n• *Social Commerce:* WhatsApp/Instagram integration\n\n💳 *Payment Options:*\n• Mobile money (M-Pesa, Airtel Money)\n• Bank transfers\n• Cryptocurrency payments\n• Instant settlement\n\n🎯 *Perfect For:*\n• Small retailers and vendors\n• Service providers\n• E-commerce businesses\n• Social media sellers\n\nStart your free trial? Type 'vendra' for access!"

/-- `getPortfolioInfo()`. -/
def getPortfolioInfo : String :=
  "🏆 *Our Success Stories*\n\nProven track record of delivering exceptional results:\n\n📊 *Company Metrics:*\n• 150+ Projects Completed\n• 98% Client Satisfaction\n• $50M+ Client ROI Generated\n\n🏦 *Featured Case Studies:*\n\n*FirstBank Nigeria* - Digital Transformation\n• 300% transaction speed improvement\n• $12M operational savings\n• 6-month implementation\n\n*Kuda Bank* - AI Fraud Detection  \n• 95% fraud reduction\n• $25M losses prevented\n• 4-month development\n\n*LUTH Hospital* - Patient Management\n• 60% faster diagnosis\n• $2.5M cost savings\n• AI-powered system\n\n🎯 *Industries We Serve:*\n• FinTech & Banking\n• Healthcare\n• E-commerce\n• Government\n• Education\n\nView detailed case studies? Type 'portfolio' for full showcase!"

/-- `getContactInfo()`. -/
def getContactInfo : String :=
  "📞 *Get in Touch*\n\nMultiple ways to connect with our team:\n\n📱 *WhatsApp Direct:* +234 810 751 6059\n✉️ *Email:* hello@develix.com  \n🌐 *Website:* www.develix.com\n\n👨‍💻 *Meet Our Founders:*\n• *Alexius Dubem (17)* - CEO & Co-Founder\n• *Jerome Ebube (16)* - CTO & Co-Founder\n🇳🇬 Built in Anambra State, Nigeria\n\n🕒 *Business Hours:*\nMonday - Friday: 9:00 AM - 6:00 PM (WAT)\nEmergency support: 24/7 available\n\n🎯 *Office Location:*\nAnambra State, Nigeria\n\nReady to schedule a meeting? Type '8' for consultation booking!"

/-- Text returned by `getQuoteInfo(userState)`. -/
def quotePromptText : String :=
  "💡 *Get Your Free Consultation*\n\nLet's discuss your project and provide a detailed quote:\n\n🎯 *What You'll Get:*\n✅ Detailed project analysis & requirements\n✅ Technology recommendations  \n✅ Accurate timeline & budget estimate\n✅ 30-minute strategy call with our founders\n\n📝 *Quick Project Assessment:*\n\nWhat type of project do you need?\n\n1. Mobile App Development\n2. Website Development  \n3. AI/ML Solution\n4. Blockchain Integration\n5. Enterprise System\n6. Other (please specify)\n\nPlease type the number or describe your project:"

/-- `getQuoteInfo(userState)`: the only menu branch with a side effect — it
moves the session into the lead form at step 1. -/
def getQuoteInfo (userState : BotState) : String × BotState :=
  (quotePromptText, { userState with currentMenu := "lead_form", leadFormStep := 1 })

/-- Budget prompt returned after lead-form step 1. -/
def budgetPrompt : String :=
  "💰 What's your budget range?\n\n1. ₦100K - ₦500K\n2. ₦500K - ₦1M\n3. ₦1M - ₦3M\n4. ₦3M - ₦5M\n5. ₦5M+\n\nPlease type the number or your budget range:"

/-- Timeline prompt returned after lead-form step 2. -/
def timelinePrompt : String :=
  "⏰ What's your timeline?\n\n1. ASAP (Rush)\n2. 1-3 months\n3. 3-6 months\n4. 6+ months\n\nPlease type the number or your timeline:"

/-- Description prompt returned after lead-form step 3. -/
def descriptionPrompt : String :=
  "📝 Please provide a brief description of your project and any specific requirements:"

/-- Name prompt returned after lead-form step 4. -/
def namePrompt : String :=
  "👤 What's your name? (This helps us personalize our service)"

/-- The summary confirmation template at the end of lead-form step 5; in the
source it reads `userState.leadData` at return time. -/
def summaryMessage (ld : LeadData) : String :=
  "🎉 Thank you " ++ jstr ld.name ++ "! Your project inquiry has been submitted.\n\n📋 Summary:\n• Project: " ++ jstr ld.projectType ++ "\n• Budget: " ++ jstr ld.budget ++ "\n• Timeline: " ++ jstr ld.timeline ++ "\n\n✅ Our team will review your requirements and contact you within 24 hours with a detailed proposal.\n\n📞 For urgent matters, call us directly at +234 810 751 6059\n\nType 'menu' to return to the main menu."

/-- `handleMainMenu(phoneNumber, messageText, userState)`: the switch over the
trimmed, lower-cased input, then the substring-fallback tier, then the root
menu default. Returns the reply and the (possibly updated) session state. -/
def handleMainMenu (messageText : String) (userState : BotState) : String × BotState :=
  let input := jsToLower (jsTrim messageText)
  if input ∈ ["1", "custom", "custom development", "development", "dev"] then
    (getCustomDevelopmentInfo, userState)
  else if input ∈ ["2", "products", "product", "apps", "app"] then
    (getProductsInfo, userState)
  else if input ∈ ["3", "ai", "artificial intelligence", "ml", "machine learning"] then
    (getAIInfo, userState)
  else if input ∈ ["4", "web", "website", "web development", "web dev"] then
    (getWebDevInfo, userState)
  else if input ∈ ["5", "blockchain", "elixa", "crypto", "defi"] then
    (getBlockchainInfo, userState)
  else if input ∈ ["6", "vendra", "marketplace"] then
    (getVendraInfo, userState)
  else if input ∈ ["7", "portfolio", "showcase", "projects", "case studies"] then
    (getPortfolioInfo, userState)
  else if input ∈ ["8", "quote", "quotes", "qoute", "qotw", "consultation", "consult", "estimate"] then
    getQuoteInfo userState
  else if input ∈ ["9", "contact", "support", "help", "reach"] then
    (getContactInfo, userState)
  else if input ∈ ["menu", "start", "main", "home"] then
    (getMainMenu, userState)
  else if includes input "project" || includes input "quote" || includes input "qoute" ||
      includes input "development" || includes input "estimate" || includes input "consult" then
    getQuoteInfo userState
  else if includes input "ai" || includes input "artificial" || includes input "machine" then
    (getAIInfo, userState)
  else if includes input "web" || includes input "website" then
    (getWebDevInfo, userState)
  else if includes input "blockchain" || includes input "crypto" || includes input "elixa" then
    (getBlockchainInfo, userState)
  else if includes input "vendra" || includes input "marketplace" then
    (getVendraInfo, userState)
  else if includes input "portfolio" || includes input "showcase" || includes input "case" then
    (getPortfolioInfo, userState)
  else if includes input "contact" || includes input "support" || includes input "reach" then
    (getContactInfo, userState)
  else if includes input "product" || includes input "app" then
    (getProductsInfo, userState)
  else
    (getMainMenu, userState)

/-- Every exact alias label of `handleMainMenu`: the numeric codes 1–9 with
their textual aliases and the navigation keywords. -/
def menuAliases : List String :=
  ["1", "custom", "custom development", "development", "dev",
   "2", "products", "product", "apps", "app",
   "3", "ai", "artificial intelligence", "ml", "machine learning",
   "4", "web", "website", "web development", "web dev",
   "5", "blockchain", "elixa", "crypto", "defi",
   "6", "vendra", "marketplace",
   "7", "portfolio", "showcase", "projects", "case studies",
   "8", "quote", "quotes", "qoute", "qotw", "consultation", "consult", "estimate",
   "9", "contact", "support", "help", "reach",
   "menu", "start", "main", "home"]

/-- Every substring marker of `handleMainMenu`'s fallback tier. -/
def substringMarkers : List String :=
  ["project", "quote", "qoute", "development", "estimate", "consult",
   "ai", "artificial", "machine",
   "web", "website",
   "blockchain", "crypto", "elixa",
   "vendra", "marketplace",
   "portfolio", "showcase", "case",
   "contact", "support", "reach",
   "product", "app"]

/-- The lead-form exit check: `menu`, `cancel`, `exit` or `back`. -/
def exitKeyword (s : String) : Bool :=
  s = "menu" || s = "cancel" || s = "exit" || s = "back"

/-- The fixed budget label table of lead-form step 2. -/
def budgetOptions (s : String) : Option String :=
  if s = "1" then some "₦100K - ₦500K"
  else if s = "2" then some "₦500K - ₦1M"
  else if s = "3" then some "₦1M - ₦3M"
  else if s = "4" then some "₦3M - ₦5M"
  else if s = "5" then some "₦5M+"
  else none

/-- The fixed timeline label table of lead-form step 3. -/
def timelineOptions (s : String) : Option String :=
  if s = "1" then some "ASAP (Rush)"
  else if s = "2" then some "1-3 months"
  else if s = "3" then some "3-6 months"
  else if s = "4" then some "6+ months"
  else none

/-- The draft passed to `storage.createLead` at form completion. -/
structure InsertLead where
  phoneNumber : String
  name : Option String
  projectType : Option String
  budget : Option String
  timeline : Option String
  description : Option String
  status : String
  deriving DecidableEq, Repr

/-- Outcome of one `handleLeadForm` call: a plain reply with the new session
state, or a commit (step 5) that additionally creates a lead. `preState` of a
commit is the session as mutated before the `createLead` call (the name is
stored, the reset has not happened); it is what the aliased map entry shows
when `createLead` rejects. -/
inductive LeadFormResult where
  | reply (response : String) (st : BotState)
  | commit (draft : InsertLead) (preState : BotState) (response : String) (st : BotState)
  deriving DecidableEq, Repr

/-- `handleLeadForm(phoneNumber, messageText, userState)`. The exit-keyword
check precedes the step dispatch. At step 5 the source resets
`userState.leadData` to `{}` *before* evaluating the summary template, so the
reply interpolates the emptied draft. -/
def handleLeadForm (phoneNumber messageText : String) (userState : BotState) : LeadFormResult :=
  let input := jsTrim messageText
  let lowerInput := jsToLower input
  if exitKeyword lowerInput then
    .reply getMainMenu { userState with currentMenu := "main", leadFormStep := 0, leadData := {} }
  else
    match userState.leadFormStep with
    | 1 =>
      .reply budgetPrompt
        { userState with leadData := { userState.leadData with projectType := some input },
                         leadFormStep := 2 }
    | 2 =>
      .reply timelinePrompt
        { userState with
            leadData := { userState.leadData with budget := some ((budgetOptions input).getD input) },
            leadFormStep := 3 }
    | 3 =>
      .reply descriptionPrompt
        { userState with
            leadData := { userState.leadData with timeline := some ((timelineOptions input).getD input) },
            leadFormStep := 4 }
    | 4 =>
      .reply namePrompt
        { userState with leadData := { userState.leadData with description := some input },
                         leadFormStep := 5 }
    | 5 =>
      let ld := { userState.leadData with name := some input }
      let draft : InsertLead :=
        ⟨phoneNumber, ld.name, ld.projectType, ld.budget, ld.timeline, ld.description, "new"⟩
      let reset : BotState := { userState with currentMenu := "main", leadFormStep := 0, leadData := {} }
      .commit draft { userState with leadData := ld } (summaryMessage reset.leadData) reset
    | _ =>
      .reply getMainMenu { userState with currentMenu := "main", leadFormStep := 0 }

/-- A stored bot-message row (`storage.createBotMessage` payload). -/
structure StoredMessage where
  phoneNumber : String
  messageType : String
  content : String
  isBot : Nat
  deriving DecidableEq, Repr

/-- One raw inbound transport event, as consumed by the handlers: the
counterparty id (`message.key.remoteJid`), the self-origination flag
(`message.key.fromMe`) and the two text carriers. -/
structure WAMessage where
  remoteJid : String
  fromMe : Bool
  conversation : Option String
  extendedText : Option String
  deriving DecidableEq, Repr

/-- `message.message?.conversation || message.message?.extendedTextMessage?.text || ''`. -/
def extractText (m : WAMessage) : String :=
  jsOr m.conversation (jsOr m.extendedText "")

/-- The observable state the conversation engine touches: the in-process
session map (`userStates`), the repository rows (messages, leads) and the
outbound sends issued through the socket. -/
structure World where
  sessions : List (String × BotState)
  messages : List StoredMessage
  leads : List InsertLead
  sent : List (String × String)
  deriving DecidableEq, Repr

/-- The empty world: no sessions, no rows, nothing sent. -/
def emptyWorld : World := ⟨[], [], [], []⟩

/-- `userStates.get`, first match in the association list. -/
def lookupSession : List (String × BotState) → String → Option BotState
  | [], _ => none
  | (k, v) :: rest, jid => if k = jid then some v else lookupSession rest jid

/-- `userStates.set`: replace the entry in place, or append a new one. -/
def setSession : List (String × BotState) → String → BotState → List (String × BotState)
  | [], jid, st => [(jid, st)]
  | (k, v) :: rest, jid, st =>
    if k = jid then (jid, st) :: rest else (k, v) :: setSession rest jid st

/-- The tail of `handleMessage`: `userStates.set`, then — when the response is
non-empty — `sock.sendMessage` and the persisted sent row. -/
def sendAndRecord (w : World) (phoneNumber response : String) (newState : BotState) :
    Except World (World × Option String) :=
  let w2 : World := { w with sessions := setSession w.sessions phoneNumber newState }
  if response = "" then .ok (w2, none)
  else
    .ok ({ w2 with sent := w2.sent ++ [(phoneNumber, response)],
                   messages := w2.messages ++ [⟨phoneNumber, "sent", response, 1⟩] },
         some response)

/-- `handleMessage(sock, message)` from bot-handler.ts, with `failCreate`
selecting whether the repository's `createLead` call rejects.  On a rejection
the exception escapes (`Except.error`) before `userStates.set` runs; the
in-place mutations done so far are visible through the map only when the
state object was already stored there (JavaScript aliasing), which the
`existing.isSome` test reproduces. -/
def handleMessage (failCreate : Bool) (message : WAMessage) (w : World) :
    Except World (World × Option String) :=
  let phoneNumber := message.remoteJid
  let messageText := extractText message
  if messageText = "" then .ok (w, none)
  else
    let w1 : World := { w with messages := w.messages ++ [⟨phoneNumber, "received", messageText, 0⟩] }
    let existing := lookupSession w1.sessions phoneNumber
    let userState := existing.getD freshState
    if userState.currentMenu = "lead_form" then
      match handleLeadForm phoneNumber messageText userState with
      | .reply response newState => sendAndRecord w1 phoneNumber response newState
      | .commit draft preState response newState =>
        if failCreate then
          .error { w1 with
                     sessions := if existing.isSome
                       then setSession w1.sessions phoneNumber preState
                       else w1.sessions }
        else
          sendAndRecord { w1 with leads := w1.leads ++ [draft] } phoneNumber response newState
    else
      let (response, newState) := handleMainMenu messageText userState
      sendAndRecord w1 phoneNumber response newState

/-- `handleMessages(m)` from whatsapp-bot.ts: take only the first event of the
batch, drop absent or self-originated events, and catch (log-and-continue) any
exception raised by `handleMessage`. -/
def handleMessages (failCreate : Bool) (batch : List WAMessage) (w : World) : World :=
  match batch with
  | [] => w
  | message :: _ =>
    if message.fromMe then w
    else
      match handleMessage failCreate message w with
      | .ok (w', _) => w'
      | .error w' => w'

/-- Build the inbound event a counterparty's plain text message produces. -/
def mkTextMsg (jid t : String) : WAMessage := ⟨jid, false, some t, none⟩

/-- Drive a sequence of inbound texts from one counterparty through
`handleMessage`, collecting the reply of each call (`none` for a throw). -/
def runSeq (failCreate : Bool) (jid : String) : List String → World → World × List (Option String)
  | [], w => (w, [])
  | t :: rest, w =>
    match handleMessage failCreate (mkTextMsg jid t) w with
    | .ok (w', r) =>
      let out := runSeq failCreate jid rest w'
      (out.1, r :: out.2)
    | .error w' =>
      let out := runSeq failCreate jid rest w'
      (out.1, none :: out.2)

/-- Status codes of the transport library's `DisconnectReason` enum (Baileys):
`loggedOut = 401`, `restartRequired = 515`, `timedOut = 408`,
`connectionLost = 408`. -/
def disconnectLoggedOut : Nat := 401

/-- `DisconnectReason.restartRequired`. -/
def disconnectRestartRequired : Nat := 515

/-- `DisconnectReason.timedOut`. -/
def disconnectTimedOut : Nat := 408

/-- `DisconnectReason.connectionLost` (the enum gives it the same code as
`timedOut`). -/
def disconnectConnectionLost : Nat := 408

/-- The connection-manager state the update handler touches. -/
structure ConnState where
  qrCodeGenerated : Bool
  isConnected : Bool
  deriving DecidableEq, Repr

/-- One `connection.update` event: the status string, the Boom status code of
`lastDisconnect.error` (when any), and the QR payload (when any). -/
structure ConnUpdate where
  connection : Option String
  statusCode : Option Nat
  qr : Option String
  deriving DecidableEq, Repr

/-- What the handler schedules: nothing, or one `setTimeout(() => this.start(), delayMs)`
— a full re-invocation of `start()` after the fixed delay. -/
inductive ReconnectAction where
  | none
  | scheduleStart (delayMs : Nat)
  deriving DecidableEq, Repr

/-- JavaScript truthiness of the optional `qr` payload string. -/
def jsTruthyStr (o : Option String) : Bool :=
  match o with
  | some s => s != ""
  | Option.none => false

/-- `WhatsAppBot.handleConnectionUpdate(update)` (whatsapp-bot.ts): render the
pairing prompt once per disconnected period, then dispatch on the connection
status; a `close` clears `isConnected` and classifies the disconnect cause. -/
def handleConnectionUpdate (s : ConnState) (u : ConnUpdate) : ConnState × ReconnectAction :=
  let s := if jsTruthyStr u.qr && !s.qrCodeGenerated
           then { s with qrCodeGenerated := true } else s
  if u.connection = some "close" then
    let s := { s with isConnected := false }
    if u.statusCode = some disconnectLoggedOut then
      ({ s with qrCodeGenerated := false }, .none)
    else if u.statusCode = some disconnectRestartRequired then
      (s, .scheduleStart 2000)
    else if u.statusCode = some disconnectTimedOut ∨ u.statusCode = some disconnectConnectionLost then
      (s, .scheduleStart 5000)
    else
      (s, .scheduleStart 3000)
  else if u.connection = some "open" then
    ({ s with isConnected := true, qrCodeGenerated := false }, .none)
  else
    (s, .none)

/-- Whether an `Except` result is an error. -/
def isErr {ε α : Type} : Except ε α → Bool
  | .error _ => true
  | .ok _ => false

/-- `phoneNumber.replace(/\D/g, '')`: keep only the digits 0–9. -/
def normalizePhone (s : String) : String := String.mk (s.data.filter Char.isDigit)

/-- `WhatsAppBot.generatePairingCode(phoneNumber)`: the guards, the length
validation on the normalized number, and the transport request.  The returned
list records every number passed to `sock.requestPairingCode`.  Validation and
transport failures are rethrown wrapped by the surrounding catch. -/
def generatePairingCode (hasSock isConnected : Bool)
    (transport : String → Except String String) (phoneNumber : String) :
    Except String String × List String :=
  if !hasSock then (.error "WhatsApp bot not initialized", [])
  else if !isConnected then
    (.error "WhatsApp bot not connected. Please wait for connection or scan QR code.", [])
  else
    let cleanPhoneNumber := normalizePhone phoneNumber
    if cleanPhoneNumber.length < 10 || cleanPhoneNumber.length > 15 then
      (.error ("Failed to generate pairing code: " ++ "Invalid phone number format"), [])
    else
      match transport cleanPhoneNumber with
      | .ok pairingCode => (.ok pairingCode, [cleanPhoneNumber])
      | .error e => (.error ("Failed to generate pairing code: " ++ e), [cleanPhoneNumber])

/-- A persisted Lead row of `MemStorage` (timestamps as abstract ticks). -/
structure Lead where
  id : String
  phoneNumber : String
  name : Option String
  projectType : Option String
  budget : Option String
  timeline : Option String
  description : Option String
  status : Option String
  createdAt : Nat
  updatedAt : Nat
  deriving DecidableEq, Repr

/-- A `Partial<InsertLead>` update object: `none` marks an absent key; for the
nullable columns a present key carries an `Option String` value, mirroring the
spread semantics of `{ ...lead, ...updates }`. -/
structure LeadPatch where
  phoneNumber : Option String := none
  name : Option (Option String) := none
  projectType : Option (Option String) := none
  budget : Option (Option String) := none
  timeline : Option (Option String) := none
  description : Option (Option String) := none
  status : Option (Option String) := none
  deriving DecidableEq, Repr

/-- `MemStorage.updateLead(id, updates)`: find the lead, spread the updates
over it, stamp `updatedAt`, store it back.  Returns the new map and the
updated lead (`undefined` when the id is unknown).  The admin PATCH route
passes `req.body` through as `updates` unvalidated. -/
def updateLead (leads : List Lead) (id : String) (updates : LeadPatch) (now : Nat) :
    List Lead × Option Lead :=
  match leads.find? (fun l => l.id = id) with
  | Option.none => (leads, Option.none)
  | some lead =>
    let updatedLead : Lead :=
      { lead with
          phoneNumber := updates.phoneNumber.getD lead.phoneNumber,
          name := updates.name.getD lead.name,
          projectType := updates.projectType.getD lead.projectType,
          budget := updates.budget.getD lead.budget,
          timeline := updates.timeline.getD lead.timeline,
          description := updates.description.getD lead.description,
          status := updates.status.getD lead.status,
          updatedAt := now }
    (leads.map (fun l => if l.id = id then updatedLead else l), some updatedLead)

set_option maxRecDepth 20000

/-- C1: driving a fresh session through ["8","1","2","3 weeks","build me an app","Ada"]
yields the quote prompt, then the budget, timeline, description and name
prompts, and creates exactly one Lead with status "new" (projectType stored
verbatim as "1"), resetting the session — but the final confirmation message
interpolates the already-cleared draft, so it renders "undefined" in place of
every echoed field and does not contain "Ada". -/
theorem c1_scenario_summary_bug :
    (runSeq false "2348012345678@s.whatsapp.net"
        ["8", "1", "2", "3 weeks", "build me an app", "Ada"] emptyWorld).2 =
      [some quotePromptText, some budgetPrompt, some timelinePrompt,
       some descriptionPrompt, some namePrompt, some (summaryMessage {})] ∧
    (runSeq false "2348012345678@s.whatsapp.net"
        ["8", "1", "2", "3 weeks", "build me an app", "Ada"] emptyWorld).1.leads =
      [⟨"2348012345678@s.whatsapp.net", some "Ada", some "1", some "₦500K - ₦1M",
        some "3 weeks", some "build me an app", "new"⟩] ∧
    lookupSession (runSeq false "2348012345678@s.whatsapp.net"
        ["8", "1", "2", "3 weeks", "build me an app", "Ada"] emptyWorld).1.sessions
        "2348012345678@s.whatsapp.net" = some freshState ∧
    includes (summaryMessage {}) "undefined" = true ∧
    includes (summaryMessage {}) "Ada" = false := by
  refine ⟨by decide, by decide, by decide, by decide, by decide⟩

/-- C2: on a connection-status close event, `isConnected` is cleared; a
logged-out cause schedules no reconnect and clears the QR-debounce flag; a
restart-required cause schedules one `start()` after 2000 ms; a timed-out or
connection-lost cause after 5000 ms; any other cause after 3000 ms. -/
theorem c2_close_policy (s : ConnState) (u : ConnUpdate)
    (hclose : u.connection = some "close") :
    handleConnectionUpdate s u =
      ({ isConnected := false,
         qrCodeGenerated :=
           if u.statusCode = some disconnectLoggedOut then false
           else s.qrCodeGenerated || jsTruthyStr u.qr },
       if u.statusCode = some disconnectLoggedOut then ReconnectAction.none
       else if u.statusCode = some disconnectRestartRequired then .scheduleStart 2000
       else if u.statusCode = some disconnectTimedOut ∨ u.statusCode = some disconnectConnectionLost then
         .scheduleStart 5000
       else .scheduleStart 3000) := by
  obtain ⟨qrg, conn⟩ := s
  simp only [handleConnectionUpdate, hclose, disconnectLoggedOut, disconnectRestartRequired,
    disconnectTimedOut, disconnectConnectionLost]
  by_cases h1 : u.statusCode = some 401 <;>
    by_cases h2 : u.statusCode = some 515 <;>
      by_cases h3 : u.statusCode = some 408 <;>
        cases hq : jsTruthyStr u.qr <;> cases qrg <;>
          simp [h1, h2, h3, hq]

/-- Witness for C2 at the four concrete causes 515 (restart required), 401
(logged out), 408 (timed out / connection lost) and 428 (unclassified). -/
theorem c2_close_policy_witness :
    handleConnectionUpdate ⟨true, true⟩ ⟨some "close", some 515, none⟩ =
      (⟨true, false⟩, .scheduleStart 2000) ∧
    handleConnectionUpdate ⟨true, true⟩ ⟨some "close", some 401, none⟩ =
      (⟨false, false⟩, .none) ∧
    handleConnectionUpdate ⟨false, true⟩ ⟨some "close", some 408, none⟩ =
      (⟨false, false⟩, .scheduleStart 5000) ∧
    handleConnectionUpdate ⟨false, true⟩ ⟨some "close", some 428, none⟩ =
      (⟨false, false⟩, .scheduleStart 3000) := by
  have h1 := c2_close_policy ⟨true, true⟩ ⟨some "close", some 515, none⟩ rfl
  have h2 := c2_close_policy ⟨true, true⟩ ⟨some "close", some 401, none⟩ rfl
  have h3 := c2_close_policy ⟨false, true⟩ ⟨some "close", some 408, none⟩ rfl
  have h4 := c2_close_policy ⟨false, true⟩ ⟨some "close", some 428, none⟩ rfl
  refine ⟨?_, ?_, ?_, ?_⟩ <;> simp_all [disconnectLoggedOut, disconnectRestartRequired,
    disconnectTimedOut, disconnectConnectionLost, jsTruthyStr]

/-- C3: at every lead-form step 1..5, an input whose trimmed lower-cased form
is one of menu/cancel/exit/back resets the session to main, step 0, empty
draft, stores nothing in the draft, and replies with the root menu text; the
exit check runs before any step-specific parsing. -/
theorem c3_exit_resets (failCreate : Bool) (msg : WAMessage) (w : World)
    (step : Nat) (ld : LeadData)
    (hstep1 : 1 ≤ step) (hstep5 : step ≤ 5)
    (hsess : lookupSession w.sessions msg.remoteJid = some ⟨"lead_form", step, ld⟩)
    (hexit : jsToLower (jsTrim (extractText msg)) ∈ ["menu", "cancel", "exit", "back"]) :
    handleMessage failCreate msg w =
      .ok ({ w with
               messages := (w.messages ++ [⟨msg.remoteJid, "received", extractText msg, 0⟩])
                 ++ [⟨msg.remoteJid, "sent", getMainMenu, 1⟩],
               sessions := setSession w.sessions msg.remoteJid ⟨"main", 0, {}⟩,
               sent := w.sent ++ [(msg.remoteJid, getMainMenu)] },
           some getMainMenu) := by
  have htext : ¬ extractText msg = "" := by
    intro h0
    rw [h0] at hexit
    have he : jsToLower (jsTrim "") = "" := rfl
    rw [he] at hexit
    simp at hexit
  have hek : exitKeyword (jsToLower (jsTrim (extractText msg))) = true := by
    simp only [List.mem_cons, List.not_mem_nil, or_false] at hexit
    rcases hexit with h | h | h | h <;> simp [exitKeyword, h]
  simp [handleMessage, htext, hsess, handleLeadForm, hek, sendAndRecord, getMainMenu]

/-- Session map with one counterparty waiting at lead-form step 5. -/
def w3 : World := ⟨[("234p3", ⟨"lead_form", 5, {}⟩)], [], [], []⟩

/-- Witness for C3: " MENU " sent at step 5 resets the session and returns the
root menu. -/
theorem c3_exit_resets_witness :
    handleMessage false (mkTextMsg "234p3" " MENU ") w3 =
      .ok (⟨[("234p3", ⟨"main", 0, {}⟩)],
            [⟨"234p3", "received", " MENU ", 0⟩, ⟨"234p3", "sent", getMainMenu, 1⟩],
            [], [("234p3", getMainMenu)]⟩,
           some getMainMenu) :=
  c3_exit_resets false (mkTextMsg "234p3" " MENU ") w3 5 {} (by decide) (by decide) rfl
    (by decide)

/-- Counterexample to C4 as stated: at step 2 the input "menu" matches no
numeric code of the budget table, yet it is not stored verbatim and the step
does not advance — the exit-keyword check fires first and resets the form. -/
theorem c4_exit_counterexample :
    handleLeadForm "p" "menu" ⟨"lead_form", 2, {}⟩ = .reply getMainMenu ⟨"main", 0, {}⟩ ∧
    handleLeadForm "p" "menu" ⟨"lead_form", 2, {}⟩ ≠
      .reply timelinePrompt ⟨"lead_form", 3, { budget := some "menu" }⟩ := by
  constructor
  · decide
  · decide

/-- C4 (amended): at step 2 the input "3" stores the label "₦1M - ₦3M", at
step 3 the input "2" stores "1-3 months"; any trimmed non-exit-keyword input
matching no numeric code of the step's table is stored verbatim; in all these
cases the step advances by one. -/
theorem c4_tables_amended (jid : String) (ld : LeadData) (input : String)
    (hfix : jsTrim input = input)
    (hexit : exitKeyword (jsToLower input) = false) :
    handleLeadForm jid "3" ⟨"lead_form", 2, ld⟩ =
      .reply timelinePrompt ⟨"lead_form", 3, { ld with budget := some "₦1M - ₦3M" }⟩ ∧
    handleLeadForm jid "2" ⟨"lead_form", 3, ld⟩ =
      .reply descriptionPrompt ⟨"lead_form", 4, { ld with timeline := some "1-3 months" }⟩ ∧
    (budgetOptions input = none →
      handleLeadForm jid input ⟨"lead_form", 2, ld⟩ =
        .reply timelinePrompt ⟨"lead_form", 3, { ld with budget := some input }⟩) ∧
    (timelineOptions input = none →
      handleLeadForm jid input ⟨"lead_form", 3, ld⟩ =
        .reply descriptionPrompt ⟨"lead_form", 4, { ld with timeline := some input }⟩) := by
  refine ⟨rfl, rfl, ?_, ?_⟩
  · intro hb
    simp [handleLeadForm, hfix, hexit, hb]
  · intro ht
    simp [handleLeadForm, hfix, hexit, ht]

/-- Witness for C4 (amended): "5" at the timeline step matches no timeline
code (though it is a budget code) and is stored verbatim; the free text
"maybe 2m" is stored verbatim at the budget step. -/
theorem c4_tables_amended_witness :
    handleLeadForm "p" "5" ⟨"lead_form", 3, {}⟩ =
      .reply descriptionPrompt ⟨"lead_form", 4, { timeline := some "5" }⟩ ∧
    handleLeadForm "p" "maybe 2m" ⟨"lead_form", 2, {}⟩ =
      .reply timelinePrompt ⟨"lead_form", 3, { budget := some "maybe 2m" }⟩ :=
  ⟨(c4_tables_amended "p" {} "5" (by decide) (by decide)).2.2.2 (by decide),
   (c4_tables_amended "p" {} "maybe 2m" (by decide) (by decide)).2.2.1 (by decide)⟩

/-- C5: `generatePairingCode` rejects without calling the transport when the
connection handle is missing, when not connected, or when the normalized
number has fewer than 10 or more than 15 digits; otherwise it requests the
code on the digits-only number and returns the transport's code. -/
theorem c5_pairing (hasSock isConnected : Bool)
    (transport : String → Except String String) (phoneNumber : String) :
    (hasSock = false ∨ isConnected = false ∨
        (normalizePhone phoneNumber).length < 10 ∨ 15 < (normalizePhone phoneNumber).length →
      isErr (generatePairingCode hasSock isConnected transport phoneNumber).1 = true ∧
      (generatePairingCode hasSock isConnected transport phoneNumber).2 = []) ∧
    (hasSock = true → isConnected = true →
      10 ≤ (normalizePhone phoneNumber).length → (normalizePhone phoneNumber).length ≤ 15 →
      ∀ code, transport (normalizePhone phoneNumber) = .ok code →
        generatePairingCode hasSock isConnected transport phoneNumber =
          (.ok code, [normalizePhone phoneNumber])) := by
  constructor
  · rintro (h | h | h | h)
    · subst h; exact ⟨rfl, rfl⟩
    · subst h
      cases hasSock <;> exact ⟨rfl, rfl⟩
    · cases hasSock <;> cases isConnected <;>
        simp [generatePairingCode, isErr, h]
    · cases hasSock <;> cases isConnected <;>
        simp [generatePairingCode, isErr, Nat.lt_iff_add_one_le, h, Nat.not_lt.mpr (Nat.le_of_lt h)]
  · rintro rfl rfl hlo hhi code hcode
    simp [generatePairingCode, Nat.not_lt.mpr hlo, Nat.not_lt.mpr hhi, hcode]

/-- A transport that always yields the pairing code "TESTCODE". -/
def trOk : String → Except String String := fun _ => Except.ok "TESTCODE"

/-- Witness for C5: a 3-digit number is rejected without a transport call; a
formatted 11-digit number is normalized and paired. -/
theorem c5_pairing_witness :
    isErr (generatePairingCode true true trOk "123").1 = true ∧
    (generatePairingCode true true trOk "123").2 = [] ∧
    generatePairingCode true true trOk "+1 (234) 567-8901" = (.ok "TESTCODE", ["12345678901"]) := by
  have h1 := (c5_pairing true true trOk "123").1 (by right; right; left; decide)
  have h2 := (c5_pairing true true trOk "+1 (234) 567-8901").2 rfl rfl (by decide) (by decide)
    "TESTCODE" rfl
  exact ⟨h1.1, h1.2, h2⟩

/-- C6: the batch handler processes only the first event of a batch, does
nothing for an empty batch or a self-originated first event, and catches an
exception thrown while forwarding to the conversation engine, returning the
world reached at the throw instead of propagating. -/
theorem c6_first_only (failCreate : Bool) (msg : WAMessage) (rest : List WAMessage) (w w' : World) :
    handleMessages failCreate [] w = w ∧
    handleMessages failCreate (msg :: rest) w = handleMessages failCreate [msg] w ∧
    (msg.fromMe = true → handleMessages failCreate (msg :: rest) w = w) ∧
    (msg.fromMe = false → handleMessage failCreate msg w = .error w' →
      handleMessages failCreate (msg :: rest) w = w') := by
  refine ⟨rfl, ?_, ?_, ?_⟩
  · cases hf : msg.fromMe <;> simp [handleMessages, hf]
  · intro hf
    simp [handleMessages, hf]
  · intro hf herr
    simp [handleMessages, hf, herr]

/-- Session map with one counterparty waiting at lead-form step 5, for the C6
witness. -/
def w6 : World := ⟨[("234p6", ⟨"lead_form", 5, {}⟩)], [], [], []⟩

/-- Witness for C6: with a rejecting `createLead`, a two-event batch whose
first event completes step 5 is handled without the exception escaping, and
the second event is ignored. -/
theorem c6_first_only_witness :
    handleMessages true [mkTextMsg "234p6" "Zed", mkTextMsg "234p6" "again"] w6 =
      ⟨[("234p6", ⟨"lead_form", 5, { name := some "Zed" }⟩)],
       [⟨"234p6", "received", "Zed", 0⟩], [], []⟩ :=
  (c6_first_only true (mkTextMsg "234p6" "Zed") [mkTextMsg "234p6" "again"] w6
    ⟨[("234p6", ⟨"lead_form", 5, { name := some "Zed" }⟩)],
     [⟨"234p6", "received", "Zed", 0⟩], [], []⟩).2.2.2 rfl (by rfl)

/-- C7: an inbound event whose extracted text is empty is a complete no-op:
no row is written, no reply is produced, and the session map is untouched. -/
theorem c7_empty_text_noop (failCreate : Bool) (msg : WAMessage) (w : World)
    (hempty : extractText msg = "") :
    handleMessage failCreate msg w = .ok (w, none) := by
  simp [handleMessage, hempty]

/-- Witness for C7: an event with neither text carrier present. -/
theorem c7_empty_text_noop_witness :
    handleMessage true ⟨"234p7", false, none, none⟩ emptyWorld = .ok (emptyWorld, none) :=
  c7_empty_text_noop true ⟨"234p7", false, none, none⟩ emptyWorld rfl

/-- A Lead row as created at form completion, for the C8 theorems. -/
def adaLead : Lead :=
  ⟨"L1", "2348012345678@s.whatsapp.net", some "Ada", some "1", some "₦500K - ₦1M",
   some "3 weeks", some "build me an app", some "new", 0, 0⟩

/-- Counterexample to C8 as stated: `updateLead` (reached by the admin PATCH
route with the request body unvalidated) applied with a payload naming `name`
changes the lead's name, so fields other than status and updatedAt are not
immutable. -/
theorem c8_patch_counterexample :
    (updateLead [adaLead] "L1" { name := some (some "Mallory") } 7).2 =
      some { adaLead with name := some "Mallory", updatedAt := 7 } ∧
    adaLead.name ≠ some "Mallory" := by
  refine ⟨by decide, by decide⟩

/-- C8 (amended): a `updateLead` call whose payload names only `status`
changes only status and updatedAt — phoneNumber, name, projectType, budget,
timeline and description are preserved; payloads naming other fields change
those fields too, since neither `updateLead` nor the PATCH route restricts
them. -/
theorem c8_status_patch_amended (leads : List Lead) (id : String) (l : Lead)
    (st : Option String) (now : Nat)
    (hfind : leads.find? (fun x => x.id = id) = some l) :
    (updateLead leads id { status := some st } now).2 =
      some { l with status := st, updatedAt := now } := by
  simp [updateLead, hfind]

/-- Witness for C8 (amended): a status-only patch on the stored lead. -/
theorem c8_status_patch_amended_witness :
    (updateLead [adaLead] "L1" { status := some (some "contacted") } 9).2 =
      some { adaLead with status := some "contacted", updatedAt := 9 } :=
  c8_status_patch_amended [adaLead] "L1" adaLead (some "contacted") 9 (by decide)

/-- C9: in the main menu, an input whose trimmed lower-cased form matches no
registered alias and contains no substring-fallback marker yields exactly the
root menu text and leaves the session unchanged. -/
theorem c9_default_root_menu (messageText : String) (userState : BotState)
    (halias : jsToLower (jsTrim messageText) ∉ menuAliases)
    (hmark : ∀ m ∈ substringMarkers, includes (jsToLower (jsTrim messageText)) m = false) :
    handleMainMenu messageText userState = (getMainMenu, userState) := by
  simp only [menuAliases, List.mem_cons, List.not_mem_nil, or_false, not_or] at halias
  simp only [substringMarkers, List.forall_mem_cons] at hmark
  simp [handleMainMenu, halias, hmark]

/-- Witness for C9 at the unrecognized input "hello there". -/
theorem c9_default_root_menu_witness :
    handleMainMenu "hello there" freshState = (getMainMenu, freshState) :=
  c9_default_root_menu "hello there" freshState (by decide) (by decide)

/-- C10: when `createLead` rejects at step 5, the error escapes
`handleMessage` (only the batch handler catches it): no reply is produced,
sent or persisted, no lead is stored, and a session already present in the map
remains at lead_form step 5 with the just-stored name in its draft, so the
next inbound message re-runs step 5. -/
theorem c10_reject_keeps_step5 (msg : WAMessage) (w : World) (ld : LeadData)
    (hsess : lookupSession w.sessions msg.remoteJid = some ⟨"lead_form", 5, ld⟩)
    (htext : extractText msg ≠ "")
    (hexit : exitKeyword (jsToLower (jsTrim (extractText msg))) = false) :
    handleMessage true msg w =
      .error { w with
                 messages := w.messages ++ [⟨msg.remoteJid, "received", extractText msg, 0⟩],
                 sessions := setSession w.sessions msg.remoteJid
                   ⟨"lead_form", 5, { ld with name := some (jsTrim (extractText msg)) }⟩ } := by
  simp [handleMessage, htext, hsess, handleLeadForm, hexit]

/-- Witness for C10: the name "Ada" arriving at step 5 while `createLead`
rejects. -/
theorem c10_reject_keeps_step5_witness :
    handleMessage true (mkTextMsg "234p11" "Ada") ⟨[("234p11", ⟨"lead_form", 5, {}⟩)], [], [], []⟩ =
      .error ⟨[("234p11", ⟨"lead_form", 5, { name := some "Ada" }⟩)],
              [⟨"234p11", "received", "Ada", 0⟩], [], []⟩ :=
  c10_reject_keeps_step5 (mkTextMsg "234p11" "Ada")
    ⟨[("234p11", ⟨"lead_form", 5, {}⟩)], [], [], []⟩ {} rfl (by decide) rfl
